import Mathlib

/-!
Formal model of the remittance transaction-flow synthesis engine, a shallow
embedding of `src/llm/contract_utils.py` and `src/llm/remittance.py`.

Modelling conventions:
* Python strings are Lean `String`s; character-level work happens on `List Char`.
* Python `float` arithmetic is modelled by exact rational arithmetic (`ℚ`);
  decimal literals of the source (`1.005`, `0.92`, `1.01`, `0.005`, `0.9`)
  become the exact rationals they denote.
* `float(s)` on a string is modelled by `pyFloatParse`, which accepts the
  decimal core of Python's float grammar (optional sign, digits, one optional
  decimal point, surrounding whitespace); exponents, `inf`/`nan` and
  underscores are outside the fragment exercised by the program.
* Fallible Python code (raising `ValueError`) returns `Except PyErr _`.
* `dict` values built by the source with a fixed literal key set become Lean
  structures with exactly those fields.
-/

/-- Characters removed by Python's default `str.strip`. -/
def pyIsSpace (c : Char) : Bool :=
  c == ' ' || c == '\t' || c == '\n' || c == '\r' || c == '\x0b' || c == '\x0c'

/-- Python `str.strip()`: drop whitespace from both ends. -/
def pyStrip (l : List Char) : List Char :=
  ((l.dropWhile pyIsSpace).reverse.dropWhile pyIsSpace).reverse

/-- Value of a (most-significant-first) list of decimal digit characters. -/
def digitsToNat (l : List Char) : Nat :=
  l.foldl (fun a c => 10 * a + (c.toNat - 48)) 0

/-- Exact value of a decimal string accepted by Python's `float`:
the denoted number is `(-1)^neg * mantissa / 10^scale`. -/
structure PyDec where
  neg : Bool
  mantissa : Nat
  scale : Nat
deriving Repr, DecidableEq

/-- Exact rational value denoted by a parsed decimal. -/
def PyDec.toRat (d : PyDec) : ℚ :=
  (if d.neg then -1 else 1) * (d.mantissa : ℚ) / 10 ^ d.scale

/-- Model of Python `float(s)` on the decimal fragment of its grammar:
optional surrounding whitespace, optional sign, integer digits, optional
decimal point with fraction digits (at least one digit overall).
Returns `none` exactly when Python's `float` raises `ValueError` on such
input. -/
def pyFloatParse (s : String) : Option PyDec :=
  let l := pyStrip s.data
  let signAndRest : Bool × List Char :=
    match l with
    | '-' :: t => (true, t)
    | '+' :: t => (false, t)
    | _ => (false, l)
  let neg := signAndRest.1
  let l1 := signAndRest.2
  let ip := l1.takeWhile Char.isDigit
  let r := l1.dropWhile Char.isDigit
  match r with
  | [] => if ip.isEmpty then none else some ⟨neg, digitsToNat ip, 0⟩
  | '.' :: t =>
    let fp := t.takeWhile Char.isDigit
    let r2 := t.dropWhile Char.isDigit
    if !r2.isEmpty then none
    else if ip.isEmpty && fp.isEmpty then none
    else some ⟨neg, digitsToNat ip * 10 ^ fp.length + digitsToNat fp, fp.length⟩
  | _ => none

/-- Python `int()` on a real value: truncation toward zero. -/
def pyTrunc (q : ℚ) : ℤ :=
  if 0 ≤ q then ⌊q⌋ else ⌈q⌉

/-- The base-unit conversion the builders apply to the exact value `a` of the
amount string: the source expression `int(float(amount) * 10 ** p)`,
i.e. multiply by `10^p` and truncate toward zero. -/
def toBaseUnitsRat (a : ℚ) (p : Nat) : ℤ :=
  pyTrunc (a * 10 ^ p)

/-- Integer-arithmetic form of `int(float(amount) * 10 ** p)` on the parsed
decimal `d` (mantissa `m`, scale `s`): `sign * (m * 10^p / 10^s)` with
natural-number division. The lemma `toBaseUnits_eq_rat` below proves it equal
to `toBaseUnitsRat d.toRat p`, the literal shape of the source expression. -/
def toBaseUnits (d : PyDec) (p : Nat) : ℤ :=
  (if d.neg then -1 else 1) * ((d.mantissa * 10 ^ p) / 10 ^ d.scale : Nat)

/-- The source's `TOKEN_DECIMALS` table: all four simulated tokens use 6. -/
def TOKEN_DECIMALS (t : String) : Nat :=
  if t = "USDC" || t = "EURC" || t = "tUSD" || t = "tEUR" then 6 else 0

/-- The source's simulated gas price constant (50 gwei). -/
def GAS_PRICE : ℤ := 50 * 10 ^ 9

/-- The source's Sepolia chain id constant. -/
def CHAIN_ID : ℤ := 11155111

/-- The source's `SEPOLIA_CONTRACTS` address table. -/
def SEPOLIA_CONTRACTS (k : String) : String :=
  if k = "USDC" then "0x1c7D4B196Cb0C7B01d743Fbc6116a902379C7238"
  else if k = "EURC" then "0x08210F9170F89Ab7658F0B5E3fF39b0E03C594D4"
  else if k = "tUSD" then "0xF038E27507405954a1B59D37b936f0226C6034AC"
  else if k = "tEUR" then "0x6F2f88340B027Cc6b8a551912A30e957aC59cb8b"
  else if k = "TestRemittanceBridge" then "0x522BdF8af3415aa281e25481A1D402869E161e36"
  else ""

/-- Left-pad a character list with `'0'` to width `w` (Python `zfill`-style
padding of an unsigned hex string). -/
def zpad (w : Nat) (l : List Char) : List Char :=
  List.replicate (w - l.length) '0' ++ l

/-- Python `f"{n:064x}"`: lowercase hex, zero-padded to total width 64
(for negative `n`, a leading minus sign followed by zero padding, as Python
formats negative integers with `x`). -/
def pyHex064 (n : ℤ) : List Char :=
  if n < 0 then '-' :: zpad 63 (Nat.toDigits 16 (-n).toNat)
  else zpad 64 (Nat.toDigits 16 n.toNat)

/-- String form of `pyHex064`. -/
def hex064 (n : ℤ) : String := String.mk (pyHex064 n)

/-- Lower-casing of one character as Python `str.lower` acts on the ASCII
range (the range relevant to hex addresses). -/
def pyLowerChar (c : Char) : Char :=
  if 'A' ≤ c ∧ c ≤ 'Z' then Char.ofNat (c.toNat + 32) else c

/-- Test whether a character list starts with `'0','x'` (Python
`address.startswith("0x")`, case-sensitive). -/
def startsWith0x (l : List Char) : Bool :=
  match l with
  | c1 :: c2 :: _ => c1 == '0' && c2 == 'x'
  | _ => false

/-- The source's `format_address`: prepend `0x` when missing, then
lower-case the whole string. No checksum or length validation. -/
def format_address (s : String) : String :=
  String.mk ((if startsWith0x s.data then s.data else '0' :: 'x' :: s.data).map pyLowerChar)

/-- Python errors raised by the transaction builders (`ValueError` from
`float` on an unparseable amount). -/
inductive PyErr where
  | valueError
deriving Repr, DecidableEq

/-- The transaction dict each builder passes to
`format_transaction_for_signing`; fields read there with `.get` defaults are
`Option`s. (The builders also put `"from"` and `"chain"` keys in this dict;
`format_transaction_for_signing` never reads them, so they are dropped.) -/
structure TxIn where
  «to» : String
  data : String
  value : Option ℤ := none
  gas : Option ℤ := none
  gasPrice : Option ℤ := none

/-- The signer-ready transaction object: exactly the seven keys the source's
`formatted_tx` dict literal contains. -/
structure Tx where
  «to» : String
  «from» : String
  data : String
  value : ℤ
  gasLimit : ℤ
  gasPrice : ℤ
  chainId : ℤ
deriving Repr, DecidableEq

/-- The source's `format_transaction_for_signing`: normalizes the user
address, applies defaults `value=0`, `gasLimit=200000`, `gasPrice=GAS_PRICE`,
and stamps the chain id. No nonce is set. -/
def format_transaction_for_signing (tx_data : TxIn) (user_address : String) : Tx :=
  { «to» := tx_data.«to»
    «from» := format_address user_address
    data := tx_data.data
    value := tx_data.value.getD 0
    gasLimit := tx_data.gas.getD 200000
    gasPrice := tx_data.gasPrice.getD GAS_PRICE
    chainId := CHAIN_ID }

/-- The source's `generate_tusd_faucet_tx`: mint calldata
`0xa0712d68 ++ amount word`, gas 200000, gas price 55 gwei. -/
def generate_tusd_faucet_tx (user_address amount : String) : Except PyErr Tx :=
  match pyFloatParse amount with
  | none => .error .valueError
  | some d =>
    let tusd_amount := toBaseUnits d (TOKEN_DECIMALS "tUSD")
    let data := "0x" ++ "a0712d68" ++ hex064 tusd_amount
    .ok (format_transaction_for_signing
      { «to» := SEPOLIA_CONTRACTS "tUSD", data := data,
        gas := some 200000, gasPrice := some (55 * 10 ^ 9), value := some 0 }
      user_address)

/-- The source's `generate_tusd_approval_tx`: approve calldata
`0x095ea7b3 ++ spender (zero-filled to 64 hex digits) ++ amount word`,
gas 100000 overriding the 200000 default. -/
def generate_tusd_approval_tx (user_address spender_address amount : String) :
    Except PyErr Tx :=
  match pyFloatParse amount with
  | none => .error .valueError
  | some d =>
    let tusd_amount := toBaseUnits d (TOKEN_DECIMALS "tUSD")
    let data := "0x095ea7b3" ++
      String.mk (zpad 64 ((format_address spender_address).data.drop 2)) ++
      hex064 tusd_amount
    .ok (format_transaction_for_signing
      { «to» := SEPOLIA_CONTRACTS "tUSD", data := data,
        gas := some 100000, gasPrice := some GAS_PRICE }
      user_address)

/-- The fixed dynamic-argument tail of the source's bridge calldata:
offset word, length word and padded bytes of one hardcoded memo string
(copied verbatim from `generate_test_remittance_tx`). -/
def REMITTANCE_TAIL : String :=
  "0000000000000000000000000000000000000000000000000000000000000040000000000000000000000000000000000000000000000000000000000000001d53616e746961676f20746573742031737420747261736e616374696f6e000000"

/-- The source's `generate_test_remittance_tx`: bridge-conversion calldata
`0xff6dc6cf ++ amount word ++ REMITTANCE_TAIL`, gas 300000. The `recipient`
argument is accepted but never used in the calldata (the memo is hardcoded). -/
def generate_test_remittance_tx (user_address amount _recipient : String) :
    Except PyErr Tx :=
  match pyFloatParse amount with
  | none => .error .valueError
  | some d =>
    let tusd_amount := toBaseUnits d (TOKEN_DECIMALS "tUSD")
    let data := "0x" ++ "ff6dc6cf" ++ hex064 tusd_amount ++ REMITTANCE_TAIL
    .ok (format_transaction_for_signing
      { «to» := SEPOLIA_CONTRACTS "TestRemittanceBridge", data := data,
        gas := some 300000, gasPrice := some GAS_PRICE }
      user_address)

/-- The cost-simulation record: the numeric and rate fields of the dict
returned by `simulate_test_remittance_cost` (the random `transaction_hash`,
the constant `requires_signature = false` and `chain = "sepolia"` fields
carry no numeric content and are omitted). -/
structure CostSim where
  usd_amount : ℚ
  usdc_amount : ℚ
  eurc_amount : ℚ
  eur_amount : ℚ
  usd_to_usdc : ℚ
  usdc_to_eurc : ℚ
  eurc_to_eur : ℚ
  network_fee_usd : ℚ
  service_fee_usd : ℚ
  total_cost_usd : ℚ
deriving Repr, DecidableEq

/-- The source's `simulate_test_remittance_cost`: fixed rates 1.005, 0.92,
1.01, flat network fee `300000 * (GAS_PRICE/10^9) * 3000 / 10^9`, service fee
`0.5%` of the amount. The `user_address` argument is never used. -/
def simulate_test_remittance_cost (_user_address usd_amount : String) :
    Except PyErr CostSim :=
  match pyFloatParse usd_amount with
  | none => .error .valueError
  | some d =>
    let usd_to_usdc_rate : ℚ := 1005 / 1000
    let usdc_to_eurc_rate : ℚ := 92 / 100
    let eurc_to_eur_rate : ℚ := 101 / 100
    let estimated_gas : ℚ := 300000
    let gas_price_gwei : ℚ := (GAS_PRICE : ℚ) / 10 ^ 9
    let eth_price_usd : ℚ := 3000
    let network_fee_usd : ℚ := estimated_gas * gas_price_gwei * eth_price_usd / 10 ^ 9
    let service_fee_usd : ℚ := d.toRat * (5 / 1000)
    .ok { usd_amount := d.toRat
          usdc_amount := d.toRat / usd_to_usdc_rate
          eurc_amount := d.toRat / usd_to_usdc_rate * usdc_to_eurc_rate
          eur_amount := d.toRat / usd_to_usdc_rate * usdc_to_eurc_rate / eurc_to_eur_rate
          usd_to_usdc := usd_to_usdc_rate
          usdc_to_eurc := usdc_to_eurc_rate
          eurc_to_eur := eurc_to_eur_rate
          network_fee_usd := network_fee_usd
          service_fee_usd := service_fee_usd
          total_cost_usd := network_fee_usd + service_fee_usd }

/-- The balance-check descriptor of step 4. -/
structure CheckBalance where
  token_address : String
deriving Repr, DecidableEq

/-- One step of the transaction flow: the key set of the source's per-step
dict literals. Steps 1-3 populate `tx_data` and have no `check_balance`
key; step 4 populates `check_balance` and has no `tx_data` key, which the
`Option` fields record. -/
structure FlowStep where
  name : String
  description : String
  tx_data : Option Tx
  check_balance : Option CheckBalance
  requires_signature : Bool
  status : String
  explain : String
deriving Repr, DecidableEq

/-- The source's `status_summary` dict. -/
structure StatusSummary where
  total_steps : ℤ
  current_step : ℤ
  completed_steps : ℤ
  usd_amount : ℚ
  estimated_eur_amount : ℚ
  recipient : String
  network : String
  using_test_tokens : Bool
deriving Repr, DecidableEq

/-- The structured result assembled by `process_remittance_intent` (the
echoed intent fields and fixed strings aside): the four flow steps, the
status summary, the cost simulation and the token address table. -/
structure RemitResult where
  chain : String
  using_test_tokens : Bool
  step1 : FlowStep
  step2 : FlowStep
  step3 : FlowStep
  step4 : FlowStep
  status_summary : StatusSummary
  cost_simulation : CostSim
  token_tUSD : String
  token_tEUR : String
  token_bridge : String
deriving Repr, DecidableEq

/-- The zero address used when no recipient address is supplied. -/
def ZERO_ADDRESS : String := "0x0000000000000000000000000000000000000000"

/-- Flow construction of the source's `process_remittance_intent`, from the
values extracted by the oracle (`amount` is the string `float` receives: the
decimal rendering of the JSON number, or the raw string; `recipient_address`
and `recipient_name` default to `""` when absent). Mirrors the source order:
cost simulation first, then steps 1-4, then the summary. -/
def process_remittance_intent (amount recipient_address recipient_name : String) :
    Except PyErr RemitResult := do
  let recipient_address :=
    if recipient_address = "" || recipient_address = "default" then ZERO_ADDRESS
    else recipient_address
  let cost_simulation ← simulate_test_remittance_cost recipient_address amount
  let tx1 ← generate_tusd_faucet_tx recipient_address amount
  let tx2 ← generate_tusd_approval_tx recipient_address
    (SEPOLIA_CONTRACTS "TestRemittanceBridge") amount
  let tx3 ← generate_test_remittance_tx recipient_address amount
    (if recipient_name = "" then "Remittance Recipient" else recipient_name)
  let d ← match pyFloatParse amount with
    | some d => Except.ok d
    | none => Except.error PyErr.valueError
  Except.ok
    { chain := "sepolia"
      using_test_tokens := true
      step1 :=
        { name := "Get tUSDC Tokens"
          description := "Get test USD tokens directly to your wallet"
          tx_data := some tx1
          check_balance := none
          requires_signature := true
          status := "waiting_for_signature"
          explain := "This step will mint test USD tokens directly to your wallet. These tokens represent USD for testing purposes." }
      step2 :=
        { name := "tUSDC Approval"
          description := "Approve the TestRemittanceBridge contract to spend your tUSDC"
          tx_data := some tx2
          check_balance := none
          requires_signature := true
          status := "waiting_for_signature"
          explain := "This step approves the TestRemittanceBridge contract to spend your tUSDC tokens on your behalf." }
      step3 :=
        { name := "USD to EUR Conversion"
          description := "Convert " ++ amount ++ " tUSDC to tEURC via TestRemittanceBridge"
          tx_data := some tx3
          check_balance := none
          requires_signature := true
          status := "waiting_for_signature"
          explain := "This transaction converts your tUSDC to tEURC at the current exchange rate, simulating an international remittance." }
      step4 :=
        { name := "Check tEURC Balance"
          description := "Check your tEURC balance after remittance"
          tx_data := none
          check_balance := some { token_address := SEPOLIA_CONTRACTS "tEUR" }
          requires_signature := false
          status := "waiting_for_execution"
          explain := "This step checks your tEURC balance after the remittance is complete." }
      status_summary :=
        { total_steps := 4
          current_step := 1
          completed_steps := 0
          usd_amount := d.toRat
          estimated_eur_amount := d.toRat * (9 / 10)
          recipient := if recipient_name = "" then recipient_address else recipient_name
          network := "Sepolia Testnet"
          using_test_tokens := true }
      cost_simulation := cost_simulation
      token_tUSD := SEPOLIA_CONTRACTS "tUSD"
      token_tEUR := SEPOLIA_CONTRACTS "tEUR"
      token_bridge := SEPOLIA_CONTRACTS "TestRemittanceBridge" }

/-- Two lowercase hex digits of a byte value. -/
def byteHex (n : Nat) : List Char :=
  zpad 2 (Nat.toDigits 16 (n % 256))

/-- Hex rendering of the UTF-8 bytes of an ASCII character list (every memo
string in scope is plain ASCII, one byte per character). -/
def asciiBytesHex (l : List Char) : List Char :=
  (l.map fun c => byteHex c.toNat).flatten

/-- Modelled from the spec: the standard dynamic-type ABI encoding of a
string argument in the two-argument call `(uint256, string)` — a 32-byte
offset word pointing past the fixed head (`0x40`), a 32-byte word holding the
byte length of the memo, then the UTF-8 bytes right-padded with zeros to a
32-byte boundary. Used as the comparator the source's hardcoded calldata
tail is checked against. -/
def abiDynamicStringTail (memo : List Char) : String :=
  hex064 64 ++ hex064 memo.length ++
    String.mk (asciiBytesHex memo ++
      List.replicate (((memo.length + 31) / 32 * 32 - memo.length) * 2) '0')

/-- The hardcoded memo string of `generate_test_remittance_tx`. -/
def HARDCODED_MEMO : String := "Santiago test 1st trasnaction"

/-- First index of `needle` in the character list, counting from `i`;
`none` when absent. -/
def findFromAux : List Char → List Char → Nat → Option Nat
  | [], needle, i => if needle.isEmpty then some i else none
  | l@(_ :: t), needle, i =>
    if needle.isPrefixOf l then some i else findFromAux t needle (i + 1)

/-- Python `hay.find(needle)`: first index or `-1`. -/
def pyFind (hay needle : List Char) : Int :=
  match findFromAux hay needle 0 with
  | some i => (i : Int)
  | none => -1

/-- Python `hay.find(needle, start)`: first index at or after `start`,
or `-1`. -/
def pyFindFrom (hay needle : List Char) (start : Nat) : Int :=
  match findFromAux (hay.drop start) needle start with
  | some i => (i : Int)
  | none => -1

/-- Python `needle in hay` substring test. -/
def pyContains (hay needle : List Char) : Bool :=
  (findFromAux hay needle 0).isSome

/-- Python `hay.find(c)` for a single character: first index or `-1`. -/
def pyFindChar (hay : List Char) (c : Char) : Int :=
  match hay.findIdx? (· == c) with
  | some i => (i : Int)
  | none => -1

/-- Python `hay.rfind(c)` for a single character: last index or `-1`. -/
def pyRFindChar (hay : List Char) (c : Char) : Int :=
  match hay.reverse.findIdx? (· == c) with
  | some i => ((hay.length - 1 - i : Nat) : Int)
  | none => -1

/-- Python slice `l[a:b]`: negative indices count from the end, both ends
are clamped to the list. -/
def pySlice (l : List Char) (a b : Int) : List Char :=
  let n : Int := l.length
  let norm : Int → Int := fun i => if i < 0 then i + n else i
  let a1 := max 0 (min n (norm a))
  let b1 := max 0 (min n (norm b))
  (l.take b1.toNat).drop a1.toNat

/-- JSON values as produced by `json.loads` on the fragment the program
exercises (numeric literals restricted to integers, which is what the
remittance schema's extracted objects contain). -/
inductive Json where
  | null
  | bool (b : Bool)
  | num (n : ℤ)
  | str (s : String)
  | arr (elems : List Json)
  | obj (members : List (String × Json))

/-- Whitespace skipped between JSON tokens. -/
def jsonSkipWs (l : List Char) : List Char :=
  l.dropWhile fun c => c == ' ' || c == '\t' || c == '\n' || c == '\r'

/-- Decode one JSON string body (after the opening quote), handling the
single-character escapes; `\u` escapes are outside the exercised fragment. -/
def parseJsonStrBody (fuel : Nat) (l : List Char) (acc : List Char) :
    Option (String × List Char) :=
  match fuel with
  | 0 => none
  | fuel + 1 =>
    match l with
    | [] => none
    | '"' :: t => some (String.mk acc.reverse, t)
    | '\\' :: e :: t =>
      let dec : Option Char :=
        if e == '"' then some '"'
        else if e == '\\' then some '\\'
        else if e == '/' then some '/'
        else if e == 'n' then some '\n'
        else if e == 't' then some '\t'
        else if e == 'r' then some '\r'
        else if e == 'b' then some '\x08'
        else if e == 'f' then some '\x0c'
        else none
      match dec with
      | some c => parseJsonStrBody fuel t (c :: acc)
      | none => none
    | c :: t => parseJsonStrBody fuel t (c :: acc)

/-- Decode a JSON integer literal (optional minus sign, digits, no leading
zero on a multi-digit number). -/
def parseJsonInt (l : List Char) : Option (ℤ × List Char) :=
  let signAndRest : Bool × List Char :=
    match l with
    | '-' :: t => (true, t)
    | _ => (false, l)
  let ds := signAndRest.2.takeWhile Char.isDigit
  let rest := signAndRest.2.dropWhile Char.isDigit
  if ds.isEmpty then none
  else if ds.length > 1 && ds.headD '0' == '0' then none
  else some ((if signAndRest.1 then -1 else 1) * (digitsToNat ds : ℤ), rest)

mutual

/-- Fuel-bounded recursive-descent parser for one JSON value. -/
def parseJsonVal (fuel : Nat) (l : List Char) : Option (Json × List Char) :=
  match fuel with
  | 0 => none
  | fuel + 1 =>
    match l with
    | [] => none
    | '"' :: t => (parseJsonStrBody (t.length + 1) t []).map fun p => (.str p.1, p.2)
    | '\x7b' :: t =>
      let t1 := jsonSkipWs t
      match t1 with
      | '\x7d' :: t2 => some (.obj [], t2)
      | _ => (parseJsonMembers fuel t1).map fun p => (.obj p.1, p.2)
    | '[' :: t =>
      let t1 := jsonSkipWs t
      match t1 with
      | ']' :: t2 => some (.arr [], t2)
      | _ => (parseJsonElems fuel t1).map fun p => (.arr p.1, p.2)
    | 't' :: 'r' :: 'u' :: 'e' :: t => some (.bool true, t)
    | 'f' :: 'a' :: 'l' :: 's' :: 'e' :: t => some (.bool false, t)
    | 'n' :: 'u' :: 'l' :: 'l' :: t => some (.null, t)
    | _ => (parseJsonInt l).map fun p => (.num p.1, p.2)

/-- Parse the members of a JSON object, positioned at a key. -/
def parseJsonMembers (fuel : Nat) (l : List Char) :
    Option (List (String × Json) × List Char) :=
  match fuel with
  | 0 => none
  | fuel + 1 =>
    match l with
    | '"' :: t =>
      match parseJsonStrBody (t.length + 1) t [] with
      | none => none
      | some (key, t1) =>
        match jsonSkipWs t1 with
        | ':' :: t2 =>
          match parseJsonVal fuel (jsonSkipWs t2) with
          | none => none
          | some (v, t3) =>
            match jsonSkipWs t3 with
            | ',' :: t4 =>
              (parseJsonMembers fuel (jsonSkipWs t4)).map fun p =>
                ((key, v) :: p.1, p.2)
            | '\x7d' :: t4 => some ([(key, v)], t4)
            | _ => none
        | _ => none
    | _ => none

/-- Parse the elements of a JSON array, positioned at a value. -/
def parseJsonElems (fuel : Nat) (l : List Char) :
    Option (List Json × List Char) :=
  match fuel with
  | 0 => none
  | fuel + 1 =>
    match parseJsonVal fuel l with
    | none => none
    | some (v, t) =>
      match jsonSkipWs t with
      | ',' :: t1 => (parseJsonElems fuel (jsonSkipWs t1)).map fun p => (v :: p.1, p.2)
      | ']' :: t1 => some ([v], t1)
      | _ => none

end

/-- Model of `json.loads` on a character list: one JSON value surrounded
only by whitespace, `none` when `json.loads` raises `JSONDecodeError`. -/
def json_loads (l : List Char) : Option Json :=
  match parseJsonVal (2 * l.length + 4) (jsonSkipWs l) with
  | some (v, rest) => if (jsonSkipWs rest).isEmpty then some v else none
  | none => none

/-- The fenced-code-block extraction of `process_remittance_intent`
(lines 98-111 of `src/llm/remittance.py`): cut the candidate JSON text out
of a triple-backtick block when one is present. -/
def extract_json_str (response_text : List Char) : List Char :=
  if pyContains response_text ("```json".data) then
    let json_start := pyFind response_text ("```json".data) + 7
    let json_end := pyFindFrom response_text ("```".data) json_start.toNat
    pyStrip (pySlice response_text json_start json_end)
  else if pyContains response_text ("```".data) then
    let json_start := pyFind response_text ("```".data) + 3
    let json_end := pyFindFrom response_text ("```".data) json_start.toNat
    pyStrip (pySlice response_text json_start json_end)
  else response_text

/-- The oracle-response parsing of `process_remittance_intent` (lines
96-129 of `src/llm/remittance.py`): strip the raw completion text, extract
the candidate JSON (fenced block or whole text), `json.loads` it, fall back
to the text between the first opening and last closing curly brace, and
otherwise fail carrying the stripped raw response text. -/
def parse_oracle_response (raw : String) : Except String Json :=
  let response_text := pyStrip raw.data
  let json_str := extract_json_str response_text
  match json_loads json_str with
  | some v => .ok v
  | none =>
    let start_idx := pyFindChar response_text '\x7b'
    let end_idx := pyRFindChar response_text '\x7d' + 1
    if 0 ≤ start_idx ∧ start_idx < end_idx then
      match json_loads (pySlice response_text start_idx end_idx) with
      | some v => .ok v
      | none => .error (String.mk response_text)
    else .error (String.mk response_text)

set_option maxRecDepth 16384

/-- Lower-casing one character twice equals lower-casing it once. -/
theorem pyLowerChar_idem (c : Char) : pyLowerChar (pyLowerChar c) = pyLowerChar c := by
  unfold pyLowerChar
  by_cases h : 'A' ≤ c ∧ c ≤ 'Z'
  · simp only [h, if_true]
    have hval : Nat.isValidChar (c.toNat + 32) := by
      have h2 : c.toNat ≤ 90 := h.2
      left; omega
    have htn : (Char.ofNat (c.toNat + 32)).toNat = c.toNat + 32 := by
      simp [Char.ofNat, hval]; rfl
    have hnot : ¬ ('A' ≤ Char.ofNat (c.toNat + 32) ∧ Char.ofNat (c.toNat + 32) ≤ 'Z') := by
      rintro ⟨-, hb⟩
      have h3 : (Char.ofNat (c.toNat + 32)).toNat ≤ 90 := hb
      rw [htn] at h3
      have h1 : 65 ≤ c.toNat := h.1
      omega
    simp [hnot]
  · simp only [h, if_false]

/-- The `0x`-prepending step of `format_address` always yields a list that
starts with `'0', 'x'`. -/
theorem prepend_shape (l : List Char) :
    ∃ t, (if startsWith0x l then l else '0' :: 'x' :: l) = '0' :: 'x' :: t := by
  match l with
  | [] => exact ⟨[], by simp [startsWith0x]⟩
  | [c1] => exact ⟨[c1], by simp [startsWith0x]⟩
  | c1 :: c2 :: r =>
    by_cases h1 : c1 = '0' ∧ c2 = 'x'
    · obtain ⟨rfl, rfl⟩ := h1
      exact ⟨r, by simp [startsWith0x]⟩
    · refine ⟨c1 :: c2 :: r, ?_⟩
      have hf : startsWith0x (c1 :: c2 :: r) = false := by
        simp [startsWith0x]
        intro h0
        subst h0
        intro hx
        exact h1 ⟨rfl, hx⟩
      simp [hf]

/-- The integer-arithmetic base-unit conversion agrees with the literal
source expression `int(float(amount) * 10 ** p)` read over exact rationals. -/
theorem toBaseUnits_eq_rat (d : PyDec) (p : Nat) :
    toBaseUnits d p = toBaseUnitsRat d.toRat p := by
  obtain ⟨neg, m, s⟩ := d
  have hcast : ∀ q : ℚ, q = ((m * 10 ^ p : ℕ) : ℚ) / ((10 ^ s : ℕ) : ℚ) →
      ⌊q⌋ = ((m * 10 ^ p) / 10 ^ s : ℕ) := by
    intro q hq
    rw [hq, Rat.floor_natCast_div_natCast]
    exact (Int.ofNat_tdiv _ _).symm
  cases neg with
  | false =>
    simp only [toBaseUnits, toBaseUnitsRat, pyTrunc, PyDec.toRat, Bool.false_eq_true,
      if_false, one_mul]
    have hq : ((m : ℚ) / 10 ^ s) * 10 ^ p = ((m * 10 ^ p : ℕ) : ℚ) / ((10 ^ s : ℕ) : ℚ) := by
      push_cast; ring
    have h0 : (0 : ℚ) ≤ ((m : ℚ) / 10 ^ s) * 10 ^ p := by positivity
    rw [if_pos h0, hcast _ hq]
  | true =>
    simp only [toBaseUnits, toBaseUnitsRat, pyTrunc, PyDec.toRat, if_true]
    have hq : ((-1 : ℚ) * m / 10 ^ s) * 10 ^ p =
        -(((m * 10 ^ p : ℕ) : ℚ) / ((10 ^ s : ℕ) : ℚ)) := by
      push_cast; ring
    by_cases hm : m = 0
    · subst hm
      norm_num [hq]
    · have hpos : (0 : ℚ) < ((m * 10 ^ p : ℕ) : ℚ) / ((10 ^ s : ℕ) : ℚ) := by
        apply div_pos
        · have h1 : 0 < m * 10 ^ p := by positivity
          exact_mod_cast h1
        · have h2 : 0 < (10 : ℕ) ^ s := by positivity
          exact_mod_cast h2
      have hneg : ¬ (0 : ℚ) ≤ ((-1 : ℚ) * m / 10 ^ s) * 10 ^ p := by
        rw [hq]; linarith
      rw [if_neg hneg, hq, Int.ceil_neg, hcast _ rfl]
      push_cast; ring

/-- C1: every successfully processed intent yields a flow of exactly 4 steps
in the fixed order mint/faucet (selector `0xa0712d68`), approve (selector
`0x095ea7b3`), convert (selector `0xff6dc6cf`), balance check; steps 1-3
require a signature and start in `waiting_for_signature`, step 4 requires no
signature and starts in `waiting_for_execution`. -/
theorem flow_has_four_fixed_steps (amount addr name : String) (r : RemitResult)
    (h : process_remittance_intent amount addr name = Except.ok r) :
    r.status_summary.total_steps = 4 ∧
    (∃ t rest, r.step1.tx_data = some t ∧ t.data = "0xa0712d68" ++ rest) ∧
    (∃ t rest, r.step2.tx_data = some t ∧ t.data = "0x095ea7b3" ++ rest) ∧
    (∃ t rest, r.step3.tx_data = some t ∧ t.data = "0xff6dc6cf" ++ rest) ∧
    r.step4.tx_data = none ∧
    r.step4.check_balance = some ⟨SEPOLIA_CONTRACTS "tEUR"⟩ ∧
    r.step1.requires_signature = true ∧ r.step1.status = "waiting_for_signature" ∧
    r.step2.requires_signature = true ∧ r.step2.status = "waiting_for_signature" ∧
    r.step3.requires_signature = true ∧ r.step3.status = "waiting_for_signature" ∧
    r.step4.requires_signature = false ∧ r.step4.status = "waiting_for_execution" := by
  unfold process_remittance_intent simulate_test_remittance_cost generate_tusd_faucet_tx
    generate_tusd_approval_tx generate_test_remittance_tx at h
  cases hp : pyFloatParse amount with
  | none =>
    rw [hp] at h
    simp [Bind.bind, Except.bind] at h
  | some d =>
    rw [hp] at h
    simp only [Bind.bind, Except.bind, Except.ok.injEq] at h
    subst h
    refine ⟨rfl, ?_, ?_, ?_, rfl, rfl, rfl, rfl, rfl, rfl, rfl, rfl, rfl, rfl⟩
    · exact ⟨_, hex064 (toBaseUnits d (TOKEN_DECIMALS "tUSD")), rfl, rfl⟩
    · exact ⟨_, String.mk (zpad 64 ((format_address (SEPOLIA_CONTRACTS "TestRemittanceBridge")).data.drop 2)) ++
        hex064 (toBaseUnits d (TOKEN_DECIMALS "tUSD")), rfl, by
          show "0x095ea7b3" ++ _ ++ _ = _
          rw [String.append_assoc]⟩
    · exact ⟨_, hex064 (toBaseUnits d (TOKEN_DECIMALS "tUSD")) ++ REMITTANCE_TAIL, rfl, by
          show "0x" ++ "ff6dc6cf" ++ _ ++ _ = _
          rw [String.append_assoc]
          congr 1⟩

/-- C1 witness: the theorem applied to the concrete intent
`(amount "50", address "0xAB", name "John")`. -/
theorem flow_has_four_fixed_steps_witness :
    ∃ r, process_remittance_intent "50" "0xAB" "John" = Except.ok r ∧
      r.status_summary.total_steps = 4 ∧ r.step1.requires_signature = true ∧
      r.step4.requires_signature = false ∧ r.step4.status = "waiting_for_execution" := by
  refine ⟨_, rfl, ?_⟩
  obtain ⟨h1, -, -, -, -, -, h7, -, -, -, -, -, h13, h14⟩ :=
    flow_has_four_fixed_steps "50" "0xAB" "John" _ rfl
  exact ⟨h1, h7, h13, h14⟩

/-- C2 counterexample: in the constructed flow, step 4 carries no `tx_data`
entry at all — the `check_balance` object sits directly on the step — so the
claim that step 4's `tx_data` is the check-balance object fails on the
concrete intent `("50", "0xAB", "John")`. -/
theorem step4_txdata_counterexample :
    ∃ r, process_remittance_intent "50" "0xAB" "John" = Except.ok r ∧
      r.step4.tx_data = none ∧
      r.step4.check_balance = some { token_address := SEPOLIA_CONTRACTS "tEUR" } :=
  ⟨_, rfl, rfl, rfl⟩

/-- C2 (amended): steps 1-3 of every successfully constructed flow carry a
`tx_data` transaction descriptor with exactly the fields of `Tx`
(`to, from, data, value, gasLimit, gasPrice, chainId`) and
`chainId = 11155111`; step 4 carries no `tx_data` key, and instead holds the
`check_balance` object referencing the tEUR token address directly on the
step. -/
theorem step_txdata_shape (amount addr name : String) (r : RemitResult)
    (h : process_remittance_intent amount addr name = Except.ok r) :
    ∃ t1 t2 t3,
      r.step1.tx_data = some t1 ∧ r.step2.tx_data = some t2 ∧
      r.step3.tx_data = some t3 ∧
      t1.chainId = 11155111 ∧ t2.chainId = 11155111 ∧ t3.chainId = 11155111 ∧
      r.step4.tx_data = none ∧
      r.step4.check_balance = some { token_address := SEPOLIA_CONTRACTS "tEUR" } := by
  unfold process_remittance_intent simulate_test_remittance_cost generate_tusd_faucet_tx
    generate_tusd_approval_tx generate_test_remittance_tx at h
  cases hp : pyFloatParse amount with
  | none =>
    rw [hp] at h
    simp [Bind.bind, Except.bind] at h
  | some d =>
    rw [hp] at h
    simp only [Bind.bind, Except.bind, Except.ok.injEq] at h
    subst h
    exact ⟨_, _, _, rfl, rfl, rfl, rfl, rfl, rfl, rfl, rfl⟩

/-- C2 witness: the amended theorem applied to the concrete intent
`("50", "0xAB", "John")`. -/
theorem step_txdata_shape_witness :
    ∃ r t1, process_remittance_intent "50" "0xAB" "John" = Except.ok r ∧
      r.step1.tx_data = some t1 ∧ t1.chainId = 11155111 ∧ r.step4.tx_data = none := by
  obtain ⟨t1, t2, t3, h1, h2, h3, h4, h5, h6, h7, h8⟩ :=
    step_txdata_shape "50" "0xAB" "John" _ rfl
  exact ⟨_, t1, rfl, h1, h4, h7⟩

/-- C3 counterexample: at `a = 19/10^7` the conversion truncates
(`int(float(a) * 10^6) = 1`) while `round(a * 10^6) = 2`, and the round-trip
error `9/10^7` exceeds half of one base unit (`1/(2*10^6)`). -/
theorem toBaseUnits_round_counterexample :
    (0 : ℚ) ≤ 19 / 10 ^ 7 ∧
    toBaseUnitsRat (19 / 10 ^ 7) 6 = 1 ∧
    round ((19 / 10 ^ 7 : ℚ) * 10 ^ 6) = 2 ∧
    ¬ |(toBaseUnitsRat (19 / 10 ^ 7) 6 : ℚ) / 10 ^ 6 - 19 / 10 ^ 7| ≤ 1 / (2 * 10 ^ 6) := by
  have hv : ((19 : ℚ) / 10 ^ 7) * 10 ^ 6 = 19 / 10 := by ring
  have h1 : toBaseUnitsRat (19 / 10 ^ 7) 6 = 1 := by
    rw [toBaseUnitsRat, pyTrunc, hv, if_pos (by norm_num)]
    norm_num [Int.floor_eq_iff]
  refine ⟨by norm_num, h1, ?_, ?_⟩
  · rw [hv, round_eq]
    norm_num [Int.floor_eq_iff]
  · rw [h1]
    rw [abs_sub_comm, abs_of_pos (by norm_num)]
    norm_num

/-- C3 (amended): for every rational amount `a ≥ 0` the base-unit conversion
with precision 6 truncates rather than rounds — it yields `⌊a * 10^6⌋`, a
non-negative integer — and dividing back by `10^6` recovers `a` within one
(not half of one) base unit; moreover the integer-arithmetic conversion the
builders compute agrees with this rational form on every parsed decimal. -/
theorem toBaseUnits_trunc_roundtrip (a : ℚ) (h : 0 ≤ a) :
    0 ≤ toBaseUnitsRat a 6 ∧
    toBaseUnitsRat a 6 = ⌊a * 10 ^ 6⌋ ∧
    |(toBaseUnitsRat a 6 : ℚ) / 10 ^ 6 - a| < 1 / 10 ^ 6 ∧
    (∀ d : PyDec, toBaseUnits d 6 = toBaseUnitsRat d.toRat 6) := by
  have h6 : (0 : ℚ) ≤ a * 10 ^ 6 := by positivity
  have hfl : toBaseUnitsRat a 6 = ⌊a * 10 ^ 6⌋ := by
    rw [toBaseUnitsRat, pyTrunc, if_pos h6]
  refine ⟨?_, hfl, ?_, fun d => toBaseUnits_eq_rat d 6⟩
  · rw [hfl]
    exact Int.floor_nonneg.mpr h6
  · rw [hfl, abs_sub_lt_iff]
    have hle : ((⌊a * 10 ^ 6⌋ : ℚ)) ≤ a * 10 ^ 6 := Int.floor_le _
    have hlt : a * 10 ^ 6 < ⌊a * 10 ^ 6⌋ + 1 := Int.lt_floor_add_one _
    have hp6 : (0 : ℚ) < 10 ^ 6 := by positivity
    have h2 : (⌊a * 10 ^ 6⌋ : ℚ) / 10 ^ 6 ≤ a := by
      rw [div_le_iff₀ hp6]
      exact hle
    have h3 : a - 1 / 10 ^ 6 < (⌊a * 10 ^ 6⌋ : ℚ) / 10 ^ 6 := by
      rw [sub_lt_iff_lt_add, div_add_div_same, lt_div_iff₀ hp6]
      linarith
    constructor
    · linarith
    · linarith

/-- C3 witness: the amended theorem applied at `a = 3/2`. -/
theorem toBaseUnits_trunc_roundtrip_witness :
    (0 : ℚ) ≤ 3 / 2 ∧ 0 ≤ toBaseUnitsRat (3 / 2) 6 ∧
    |(toBaseUnitsRat (3 / 2) 6 : ℚ) / 10 ^ 6 - 3 / 2| < 1 / 10 ^ 6 := by
  have h := toBaseUnits_trunc_roundtrip (3 / 2) (by norm_num)
  exact ⟨by norm_num, h.1, h.2.2.1⟩

/-- C4 counterexample: for the memo `"A"` the bridge calldata does not end
in the ABI dynamic-string encoding of `"A"` — the tail is the encoding of
the hardcoded memo string, whatever memo is passed. -/
theorem bridge_memo_counterexample :
    ∃ t, generate_test_remittance_tx "0xAB" "5" "A" = Except.ok t ∧
      t.data ≠ "0x" ++ "ff6dc6cf" ++ hex064 (toBaseUnits ⟨false, 5, 0⟩ 6) ++
        abiDynamicStringTail ("A".data) ∧
      t.data = "0x" ++ "ff6dc6cf" ++ hex064 (toBaseUnits ⟨false, 5, 0⟩ 6) ++
        abiDynamicStringTail HARDCODED_MEMO.data := by
  refine ⟨_, rfl, ?_, ?_⟩
  · decide
  · decide

/-- C4 (amended): for every memo string and parseable amount, the
bridge-conversion calldata is the selector `0xff6dc6cf`, the 32-byte amount
word, and then the standard dynamic-type ABI encoding (offset word `0x40`,
32-byte length word, right-padded UTF-8 bytes) of the fixed hardcoded memo
`"Santiago test 1st trasnaction"` — not of the memo supplied. -/
theorem bridge_calldata_hardcoded_memo (addr amount memo : String) (d : PyDec)
    (h : pyFloatParse amount = some d) :
    ∃ t, generate_test_remittance_tx addr amount memo = Except.ok t ∧
      t.data = "0x" ++ "ff6dc6cf" ++ hex064 (toBaseUnits d 6) ++
        abiDynamicStringTail HARDCODED_MEMO.data := by
  unfold generate_test_remittance_tx
  rw [h]
  refine ⟨_, rfl, ?_⟩
  show "0x" ++ "ff6dc6cf" ++ hex064 (toBaseUnits d (TOKEN_DECIMALS "tUSD")) ++
    REMITTANCE_TAIL = _
  have ht : REMITTANCE_TAIL = abiDynamicStringTail HARDCODED_MEMO.data := by decide
  rw [ht]
  rfl

/-- C4 witness: the amended theorem applied at address `"0xAB"`, amount
`"5"`, memo `"A"`. -/
theorem bridge_calldata_hardcoded_memo_witness :
    pyFloatParse "5" = some ⟨false, 5, 0⟩ ∧
    ∃ t, generate_test_remittance_tx "0xAB" "5" "A" = Except.ok t ∧
      t.data = "0x" ++ "ff6dc6cf" ++ hex064 (toBaseUnits ⟨false, 5, 0⟩ 6) ++
        abiDynamicStringTail HARDCODED_MEMO.data :=
  ⟨rfl, bridge_calldata_hardcoded_memo "0xAB" "5" "A" ⟨false, 5, 0⟩ rfl⟩

/-- C5: the cost simulation is a pure function of the amount (the address
argument is ignored) applying the three fixed sequential rates 1.005, 0.92,
1.01 and the two fixed fee formulas (0.5% service fee, flat network fee
`300000 * 50 * 3000 / 10^9 = 45`); at amount 100 it yields
`usdc_amount ≈ 99.50`, `eurc_amount ≈ 91.54`, `eur_amount ≈ 90.63` and
`service_fee_usd = 0.5`. -/
theorem simulate_fixed_rates_and_values (addr a : String) :
    (∀ c, simulate_test_remittance_cost addr a = Except.ok c →
      c.usdc_amount = c.usd_amount / (1005 / 1000) ∧
      c.eurc_amount = c.usdc_amount * (92 / 100) ∧
      c.eur_amount = c.eurc_amount / (101 / 100) ∧
      c.service_fee_usd = c.usd_amount * (5 / 1000) ∧
      c.network_fee_usd = 45 ∧
      c.total_cost_usd = c.network_fee_usd + c.service_fee_usd ∧
      c.usd_to_usdc = 1005 / 1000 ∧ c.usdc_to_eurc = 92 / 100 ∧
      c.eurc_to_eur = 101 / 100) ∧
    simulate_test_remittance_cost addr a = simulate_test_remittance_cost "other" a ∧
    (∃ c, simulate_test_remittance_cost addr "100" = Except.ok c ∧
      |c.usdc_amount - 995 / 10| < 1 / 100 ∧
      |c.eurc_amount - 9154 / 100| < 1 / 100 ∧
      |c.eur_amount - 9063 / 100| < 1 / 100 ∧
      c.service_fee_usd = 1 / 2) := by
  refine ⟨?_, rfl, ?_⟩
  · intro c hc
    unfold simulate_test_remittance_cost at hc
    cases hp : pyFloatParse a with
    | none =>
      rw [hp] at hc
      exact absurd hc (by simp)
    | some d =>
      rw [hp] at hc
      simp only [Except.ok.injEq] at hc
      subst hc
      refine ⟨rfl, rfl, rfl, rfl, ?_, rfl, rfl, rfl, rfl⟩
      show (300000 : ℚ) * ((GAS_PRICE : ℚ) / 10 ^ 9) * 3000 / 10 ^ 9 = 45
      norm_num [GAS_PRICE]
  · refine ⟨_, rfl, ?_, ?_, ?_, ?_⟩
    · show |PyDec.toRat ⟨false, 100, 0⟩ / (1005 / 1000) - 995 / 10| < 1 / 100
      rw [abs_sub_lt_iff]
      norm_num [PyDec.toRat]
    · show |PyDec.toRat ⟨false, 100, 0⟩ / (1005 / 1000) * (92 / 100) - 9154 / 100| < 1 / 100
      rw [abs_sub_lt_iff]
      norm_num [PyDec.toRat]
    · show |PyDec.toRat ⟨false, 100, 0⟩ / (1005 / 1000) * (92 / 100) / (101 / 100) -
        9063 / 100| < 1 / 100
      rw [abs_sub_lt_iff]
      norm_num [PyDec.toRat]
    · show PyDec.toRat ⟨false, 100, 0⟩ * (5 / 1000) = 1 / 2
      norm_num [PyDec.toRat]

/-- C5 witness: the rate equations applied to the simulation of amount 100. -/
theorem simulate_fixed_rates_and_values_witness :
    ∃ c, simulate_test_remittance_cost "0xAB" "100" = Except.ok c ∧
      c.usdc_amount = c.usd_amount / (1005 / 1000) ∧ c.network_fee_usd = 45 := by
  obtain ⟨h1, -, -, -, h5, -⟩ :=
    (simulate_fixed_rates_and_values "0xAB" "100").1 _ rfl
  exact ⟨_, rfl, h1, h5⟩

/-- C6 counterexample: the negative amount `"-5"` parses to the negative
value -5, yet the faucet builder succeeds instead of failing — it returns a
transaction whose calldata embeds the sign-prefixed hex of -5000000 base
units. -/
theorem negative_amount_counterexample :
    pyFloatParse "-5" = some ⟨true, 5, 0⟩ ∧
    PyDec.toRat ⟨true, 5, 0⟩ < 0 ∧
    toBaseUnits ⟨true, 5, 0⟩ 6 = -5000000 ∧
    (∃ t, generate_tusd_faucet_tx "0xAB" "-5" = Except.ok t ∧
      t.data = "0x" ++ "a0712d68" ++ hex064 (-5000000)) := by
  refine ⟨rfl, ?_, by decide, _, rfl, rfl⟩
  norm_num [PyDec.toRat]

/-- C6 (amended): the faucet builder's base-unit conversion fails (with a
`ValueError`, there is no separate `InvalidAmount` error) exactly when the
amount string is not parseable as a decimal number at all; a parseable
amount — negative ones included — always succeeds. -/
theorem faucet_error_iff_unparseable (addr a : String) :
    (pyFloatParse a = none →
      generate_tusd_faucet_tx addr a = Except.error PyErr.valueError) ∧
    (∀ d, pyFloatParse a = some d →
      ∃ t, generate_tusd_faucet_tx addr a = Except.ok t ∧
        t.data = "0x" ++ "a0712d68" ++ hex064 (toBaseUnits d 6)) := by
  constructor
  · intro h
    unfold generate_tusd_faucet_tx
    rw [h]
  · intro d h
    unfold generate_tusd_faucet_tx
    rw [h]
    exact ⟨_, rfl, rfl⟩

/-- C6 witness: the amended theorem applied at the unparseable amount
`"abc"` and the parseable negative amount `"-5"`. -/
theorem faucet_error_iff_unparseable_witness :
    generate_tusd_faucet_tx "0xCD" "abc" = Except.error PyErr.valueError ∧
    ∃ t, generate_tusd_faucet_tx "0xCD" "-5" = Except.ok t ∧
      t.data = "0x" ++ "a0712d68" ++ hex064 (toBaseUnits ⟨true, 5, 0⟩ 6) :=
  ⟨(faucet_error_iff_unparseable "0xCD" "abc").1 rfl,
    (faucet_error_iff_unparseable "0xCD" "-5").2 ⟨true, 5, 0⟩ rfl⟩

/-- C7: flow construction is atomic — when the amount does not parse the
orchestrator propagates the error and produces no flow output at all, and
when it returns a result the result carries all four steps and the complete
summary. -/
theorem flow_construction_atomic (amount addr name : String) :
    (pyFloatParse amount = none →
      process_remittance_intent amount addr name = Except.error PyErr.valueError) ∧
    (∀ r, process_remittance_intent amount addr name = Except.ok r →
      r.step1.tx_data.isSome = true ∧ r.step2.tx_data.isSome = true ∧
      r.step3.tx_data.isSome = true ∧ r.step4.check_balance.isSome = true ∧
      r.status_summary.total_steps = 4) := by
  constructor
  · intro h
    unfold process_remittance_intent simulate_test_remittance_cost
    rw [h]
    rfl
  · intro r h
    unfold process_remittance_intent simulate_test_remittance_cost generate_tusd_faucet_tx
      generate_tusd_approval_tx generate_test_remittance_tx at h
    cases hp : pyFloatParse amount with
    | none =>
      rw [hp] at h
      simp [Bind.bind, Except.bind] at h
    | some d =>
      rw [hp] at h
      simp only [Bind.bind, Except.bind, Except.ok.injEq] at h
      subst h
      exact ⟨rfl, rfl, rfl, rfl, rfl⟩

/-- C7 witness: the theorem applied at the unparseable amount `"abc"` and
the parseable amount `"50"`. -/
theorem flow_construction_atomic_witness :
    process_remittance_intent "abc" "0xAB" "John" = Except.error PyErr.valueError ∧
    ∃ r, process_remittance_intent "50" "0xAB" "John" = Except.ok r ∧
      r.status_summary.total_steps = 4 := by
  refine ⟨(flow_construction_atomic "abc" "0xAB" "John").1 rfl, _, rfl, ?_⟩
  exact ((flow_construction_atomic "50" "0xAB" "John").2 _ rfl).2.2.2.2

/-- C8: address normalization is idempotent — normalizing twice yields the
same string as normalizing once — where normalization prepends `0x` when
missing and lower-cases the string, validating nothing. -/
theorem format_address_idem (s : String) :
    format_address (format_address s) = format_address s := by
  unfold format_address
  obtain ⟨t, ht⟩ := prepend_shape s.data
  rw [ht]
  have h0 : pyLowerChar '0' = '0' := by decide
  have hx : pyLowerChar 'x' = 'x' := by decide
  simp only [String.data, List.map_cons, h0, hx]
  have hsw : startsWith0x ('0' :: 'x' :: t.map pyLowerChar) = true := by
    simp [startsWith0x]
  simp only [hsw, if_true, List.map_cons, h0, hx, List.map_map]
  have hm : List.map (pyLowerChar ∘ pyLowerChar) t = List.map pyLowerChar t := by
    simp only [Function.comp_def]
    exact List.map_congr_left fun a _ => pyLowerChar_idem a
  rw [hm]

/-- C9: the oracle response `"Sure! ```json\n{\"amount\": 10}\n```"` parses
to the object `{"amount": 10}` via fenced-block extraction; a response that
stays unparseable even after the curly-brace bracket-scanning fallback fails
with an error carrying the stripped raw response text. -/
theorem oracle_response_extraction :
    parse_oracle_response "Sure! ```json\n\x7b\"amount\": 10\x7d\n```" =
      Except.ok (Json.obj [("amount", Json.num 10)]) ∧
    parse_oracle_response "hello" = Except.error "hello" ∧
    parse_oracle_response "oops \x7bnope\x7d" = Except.error "oops \x7bnope\x7d" :=
  ⟨rfl, rfl, rfl⟩

/-- C10: in every constructed flow, step 1 carries gas price `55 * 10^9`
(not the `GAS_PRICE = 50 * 10^9` network constant) and step 2 carries gas
limit 100000 (not the 200000 default), each set by its builder's per-step
gas fields; step 1 keeps gas limit 200000, step 3 carries its stated
300000/`GAS_PRICE` values, and a builder that sets no per-step gas fields
would receive the 200000 / `GAS_PRICE` defaults. -/
theorem gas_parameter_overrides (amount addr name : String) (r : RemitResult)
    (h : process_remittance_intent amount addr name = Except.ok r) :
    ∃ t1 t2 t3,
      r.step1.tx_data = some t1 ∧ r.step2.tx_data = some t2 ∧
      r.step3.tx_data = some t3 ∧
      t1.gasPrice = 55 * 10 ^ 9 ∧ t1.gasPrice ≠ GAS_PRICE ∧ t1.gasLimit = 200000 ∧
      t2.gasLimit = 100000 ∧ t2.gasLimit ≠ 200000 ∧ t2.gasPrice = GAS_PRICE ∧
      t3.gasLimit = 300000 ∧ t3.gasPrice = GAS_PRICE ∧
      GAS_PRICE = 50 * 10 ^ 9 ∧
      (∀ txd : TxIn, txd.gas = none →
        (format_transaction_for_signing txd addr).gasLimit = 200000) ∧
      (∀ txd : TxIn, txd.gasPrice = none →
        (format_transaction_for_signing txd addr).gasPrice = GAS_PRICE) := by
  unfold process_remittance_intent simulate_test_remittance_cost generate_tusd_faucet_tx
    generate_tusd_approval_tx generate_test_remittance_tx at h
  cases hp : pyFloatParse amount with
  | none =>
    rw [hp] at h
    simp [Bind.bind, Except.bind] at h
  | some d =>
    rw [hp] at h
    simp only [Bind.bind, Except.bind, Except.ok.injEq] at h
    subst h
    refine ⟨_, _, _, rfl, rfl, rfl, rfl, ?_, rfl, rfl, ?_, rfl, rfl, rfl, rfl, ?_, ?_⟩
    · show (55 * 10 ^ 9 : ℤ) ≠ GAS_PRICE
      decide
    · show (100000 : ℤ) ≠ 200000
      decide
    · intro txd hg
      simp [format_transaction_for_signing, hg]
    · intro txd hg
      simp [format_transaction_for_signing, hg]

/-- C10 witness: the theorem applied to the concrete intent
`("50", "0xAB", "John")`. -/
theorem gas_parameter_overrides_witness :
    ∃ r t1 t2, process_remittance_intent "50" "0xAB" "John" = Except.ok r ∧
      r.step1.tx_data = some t1 ∧ t1.gasPrice = 55 * 10 ^ 9 ∧
      r.step2.tx_data = some t2 ∧ t2.gasLimit = 100000 := by
  obtain ⟨t1, t2, t3, h1, h2, h3, h4, h5, h6, h7, h8, h9, h10, h11, h12, h13, h14⟩ :=
    gas_parameter_overrides "50" "0xAB" "John" _ rfl
  exact ⟨_, t1, t2, rfl, h1, h4, h2, h7⟩
